import Mathlib

/-!
Shallow embedding of `src/translate.py`, the Westwing translation-improvement
pipeline.  Texts are modeled as lists of characters.  The external
collaborators (the DeepL translation call and the OpenAI generation calls) are
modeled as oracle responses fixed per call site: each call can either raise or
return a payload, and the pipeline's observable behavior (recorded outputs and
the sequence of external calls) is a function of those responses.  Prompt
construction only parameterizes the collaborator calls, whose responses are
free oracle values, so prompt text does not appear in the observable state;
the two prompt ingredients the specification talks about — the terminology
substitution pass and the context serialization — are embedded separately as
`applyTerminology` and `context_info`.
-/

namespace TranslatePy

/-- Texts are lists of characters (Python `str`). -/
abbrev Str := List Char

/-- Coerce a Lean string literal into the text model. -/
def str (s : String) : Str := s.data

/-- Python `str.lower`, restricted to ASCII case folding (`Char.toLower`).
The glossary keys in `TERMINOLOGY` are already lower-case, so only the scan of
the original text is affected by the restriction. -/
def pyLower (s : Str) : Str := s.map Char.toLower

/-- Decidable prefix test on texts. -/
def isPfx : Str → Str → Bool
  | [], _ => true
  | _ :: _, [] => false
  | a :: as, b :: bs => if a = b then isPfx as bs else false

/-- Python substring membership `pat in s`. -/
def containsSub (pat : Str) : Str → Bool
  | [] => isPfx pat []
  | c :: rest => isPfx pat (c :: rest) || containsSub pat rest

/-- Fuel-indexed worker for `pyReplace`: replaces non-overlapping occurrences
of `old` by `new` left to right, like Python `str.replace`.  One unit of fuel
is spent per step, and each step consumes at least one character, so fuel
equal to the length of the text suffices. -/
def replaceFuel (old new : Str) : Nat → Str → Str
  | _, [] => []
  | 0, s => s
  | fuel + 1, c :: rest =>
    if old ≠ [] ∧ isPfx old (c :: rest) = true then
      new ++ replaceFuel old new fuel (List.drop old.length (c :: rest))
    else
      c :: replaceFuel old new fuel rest

/-- Python `s.replace(old, new)` for non-empty `old` (every glossary term is
non-empty; for `old = []` this is the identity, unlike Python). -/
def pyReplace (s old new : Str) : Str := replaceFuel old new s.length s

/-- Python `str.strip`: drop leading and trailing whitespace. -/
def pyStrip (s : Str) : Str :=
  ((s.dropWhile Char.isWhitespace).reverse.dropWhile Char.isWhitespace).reverse

/-- The `TERMINOLOGY` glossary (src/translate.py lines 34–44). -/
def TERMINOLOGY : List (Str × Str) :=
  [(str "canapé", str "sofa"),
   (str "table basse", str "coffee table"),
   (str "lit", str "bed"),
   (str "armoire", str "wardrobe"),
   (str "coussin", str "cushion"),
   (str "décoration", str "decor"),
   (str "salon", str "living room"),
   (str "chambre", str "bedroom")]

/-- The terminology loop of `improve_text_with_gpt` (src/translate.py lines
122–126), generalized over the glossary list: for each glossary pair whose
source term occurs case-insensitively in the original text, substitute the
term in the running translated text. -/
def applyGlossary (glossary : List (Str × Str)) (original_text translated_text : Str) : Str :=
  match glossary with
  | [] => translated_text
  | p :: rest =>
    applyGlossary rest original_text
      (if containsSub (pyLower p.1) (pyLower original_text) = true then
        pyReplace translated_text p.1 p.2
      else translated_text)

/-- The Terminology Normalizer: the terminology loop instantiated at the
fixed `TERMINOLOGY` glossary. -/
def applyTerminology (original_text translated_text : Str) : Str :=
  applyGlossary TERMINOLOGY original_text translated_text

/-- The slice of the pandas DataFrame visible to `get_column_context`: whether
the two sibling columns exist, and the value they hold at each row.  `none`
models a missing value (NaN); `some []` models an empty string. -/
structure DataFrame where
  hasNameCol : Bool
  hasCategoryCol : Bool
  nameAt : Nat → Option Str
  categoryAt : Nat → Option Str

/-- `get_column_context` (src/translate.py lines 75–88): the ContextBundle is
an association list.  The value read from the row is inserted as-is, with no
missing/empty check at this point. -/
def get_column_context (df : DataFrame) (row_index : Nat) (current_column : Str) :
    List (Str × Option Str) :=
  (if df.hasNameCol = true ∧ current_column ≠ str "name - fr-FR" then
    [(str "product_name", df.nameAt row_index)]
  else []) ++
  (if df.hasCategoryCol = true then [(str "category", df.categoryAt row_index)] else [])

/-- The `context_info` serialization loop of `improve_text_with_gpt`
(src/translate.py lines 116–120): `if value and not pd.isna(value)` keeps only
present, non-empty values when rendering `key: value` lines.  Written as a
right fold; string concatenation is associative, so this equals the loop's
left accumulation. -/
def context_info : List (Str × Option Str) → Str
  | [] => []
  | p :: rest =>
    (match p.2 with
      | none => ([] : Str)
      | some v => if v = [] then [] else p.1 ++ str ": " ++ v ++ ['\n']) ++
    context_info rest

/-- A parsed structured evaluation object (the JSON dict returned by
`evaluate_translation_quality`).  `none` models an absent key, matching the
Python dict operations `.get(key, default)` and `key in dict`. -/
structure Evaluation where
  score : Option Int
  feedback : Option Str
  improvement_areas : Option Str
deriving DecidableEq

/-- Response of one generation-collaborator call returning plain text: the
call can raise or return a payload. -/
inductive GenResp where
  | raise (msg : Str)
  | ok (text : Str)
deriving DecidableEq

/-- Response of one structured evaluation call: the call can raise, return
content that fails JSON parsing, or return a parsed object. -/
inductive EvalResp where
  | raise (msg : Str)
  | parseFail (msg : Str)
  | parsed (ev : Evaluation)
deriving DecidableEq

/-- External call sites, recorded in the order the calls are issued. -/
inductive Call where
  | translate
  | improve
  | evaluate
  | refine
deriving DecidableEq

/-- Oracle fixing what each external collaborator would answer at each of the
five call sites of one cell's processing (DeepL translate, first-pass
improvement, first evaluation, refinement, final evaluation).  A site's
response is consumed only if that call is actually reached. -/
structure CellOracle where
  translateResp : GenResp
  improveResp : GenResp
  evalResp1 : EvalResp
  refineResp : GenResp
  evalResp2 : EvalResp
deriving DecidableEq

/-- The per-cell recorded outputs (src/translate.py lines 318–320 / 326–328):
the three values appended to the output columns. -/
structure PipelineResult where
  improved_text : Str
  quality_score : Int
  quality_feedback : Str
deriving DecidableEq

/-- `improve_text_with_gpt` (src/translate.py lines 90–149).  Empty input
short-circuits to empty output with no external call (line 94); otherwise one
generation call is made and its stripped content is returned (line 148), or
the collaborator's exception propagates.  The prompt built from the
terminology pass and `context_info` only parameterizes the call, whose
response is the free oracle value `resp`. -/
def improve_text_with_gpt (resp : GenResp) (translated_text original_text column_name : Str) :
    Except Str Str × List Call :=
  if translated_text = [] then (Except.ok [], [])
  else
    match resp with
    | GenResp.raise m => (Except.error m, [Call.improve])
    | GenResp.ok t => (Except.ok (pyStrip t), [Call.improve])

/-- `refine_translation` (src/translate.py lines 151–195).  Empty input
short-circuits (line 155); otherwise one generation call is made regardless of
whether `quality_criteria` is empty (an empty criteria string only omits the
`quality_info` prompt paragraph, lines 172–174). -/
def refine_translation (resp : GenResp) (first_pass_text original_text : Str)
    (quality_criteria column_name : Str) : Except Str Str × List Call :=
  if first_pass_text = [] then (Except.ok [], [])
  else
    match resp with
    | GenResp.raise m => (Except.error m, [Call.refine])
    | GenResp.ok t => (Except.ok (pyStrip t), [Call.refine])

/-- `evaluate_translation_quality` (src/translate.py lines 197–245).  Empty
raw translation or candidate short-circuits to the empty-translation sentinel
with no external call (lines 202–203); otherwise one generation call is made.
A raise of the call itself propagates (line 229 is outside the `try:`); a JSON
parsing failure is caught and converted to the parse-failure sentinel with
score 0, an `Error: <cause>` feedback and an empty-but-present
`improvement_areas` (lines 240–245); a parsed object is returned verbatim
(line 242). -/
def evaluate_translation_quality (resp : EvalResp)
    (original_text translated_text improved_text column_name : Str) :
    Except Str Evaluation × List Call :=
  if translated_text = [] ∨ improved_text = [] then
    (Except.ok ⟨some 0, some (str "Empty translation"), none⟩, [])
  else
    match resp with
    | EvalResp.raise m => (Except.error m, [Call.evaluate])
    | EvalResp.parseFail m =>
      (Except.ok ⟨some 0, some (str "Error: " ++ m), some []⟩, [Call.evaluate])
    | EvalResp.parsed ev => (Except.ok ev, [Call.evaluate])

/-- Body of the per-cell `try:` block (src/translate.py lines 291–322):
translate, improve, evaluate, conditionally refine (line 308: refinement runs
iff `evaluation.get("score", 5) < 4` and the `improvement_areas` key is
present), then a final unconditional evaluation (line 316) whose score and
feedback are recorded with defaults 0 and "" (lines 319–320).  An error value
carries the exception cause and the calls made before it was raised. -/
def runCell (o : CellOracle) (original_text col : Str) :
    Except (Str × List Call) (PipelineResult × List Call) :=
  match o.translateResp with
  | GenResp.raise m => Except.error (m, [Call.translate])
  | GenResp.ok translated_text =>
    match improve_text_with_gpt o.improveResp translated_text original_text col with
    | (Except.error m, cs1) => Except.error (m, Call.translate :: cs1)
    | (Except.ok first_pass, cs1) =>
      match evaluate_translation_quality o.evalResp1 original_text translated_text first_pass col with
      | (Except.error m, cs2) => Except.error (m, Call.translate :: (cs1 ++ cs2))
      | (Except.ok evaluation, cs2) =>
        match
          (if evaluation.score.getD 5 < 4 ∧ evaluation.improvement_areas.isSome = true then
            refine_translation o.refineResp first_pass original_text
              (evaluation.improvement_areas.getD []) col
          else (Except.ok first_pass, [])) with
        | (Except.error m, cs3) => Except.error (m, Call.translate :: (cs1 ++ cs2 ++ cs3))
        | (Except.ok improved_text, cs3) =>
          match evaluate_translation_quality o.evalResp2 original_text translated_text
              improved_text col with
          | (Except.error m, cs4) =>
            Except.error (m, Call.translate :: (cs1 ++ cs2 ++ cs3 ++ cs4))
          | (Except.ok final_evaluation, cs4) =>
            Except.ok
              (⟨improved_text, final_evaluation.score.getD 0, final_evaluation.feedback.getD []⟩,
               Call.translate :: (cs1 ++ cs2 ++ cs3 ++ cs4))

/-- One iteration of the per-cell loop (src/translate.py lines 285–328):
a missing source cell (`pd.isna`, modeled as `none`) short-circuits to the
empty outputs with no external call; otherwise the `try:` body runs, and any
exception is recovered at cell granularity into the error-tagged sentinel
result (lines 324–328). -/
def processCell (o : CellOracle) (cell : Option Str) (col : Str) : PipelineResult × List Call :=
  match cell with
  | none => (⟨[], 0, []⟩, [])
  | some original_text =>
    match runCell o original_text col with
    | Except.ok r => r
    | Except.error (m, cs) => (⟨[], 0, str "Error: " ++ m⟩, cs)

/-- The per-column loop (src/translate.py lines 275–333): each cell of the
column is processed independently and its result appended to the output
lists. -/
def processColumn (col : Str) (cells : List (CellOracle × Option Str)) : List PipelineResult :=
  cells.map (fun p => (processCell p.1 p.2 col).1)

/-- Column identity used by the concrete instantiations below. -/
def colX : Str := str "color - fr-FR"

/-- Concrete oracle: the first evaluation response fails to parse, producing
the parse-failure sentinel; all other collaborator calls succeed. -/
def oSentinel : CellOracle :=
  ⟨GenResp.ok (str "Grey sofa"), GenResp.ok (str "Nice grey sofa"),
   EvalResp.parseFail (str "Expecting value"), GenResp.ok (str "Refined sofa"),
   EvalResp.parsed ⟨some 4, some (str "good"), some []⟩⟩

/-- Concrete oracle: the first evaluation parses with a passing score 5 and no
`improvement_areas` key; the final evaluation parses with score 4. -/
def oPass : CellOracle :=
  ⟨GenResp.ok (str "Grey sofa"), GenResp.ok (str "Nice grey sofa"),
   EvalResp.parsed ⟨some 5, some (str "great"), none⟩, GenResp.ok (str "Refined sofa"),
   EvalResp.parsed ⟨some 4, some (str "good"), some []⟩⟩

/-- Concrete oracle: the improvement call raises. -/
def oImpRaise : CellOracle :=
  ⟨GenResp.ok (str "Grey sofa"), GenResp.raise (str "rate limit"),
   EvalResp.parsed ⟨some 5, some (str "great"), none⟩, GenResp.ok (str "Refined sofa"),
   EvalResp.parsed ⟨some 4, some (str "good"), some []⟩⟩

/-- Concrete oracle: the translation call returns the empty string. -/
def oEmptyCell : CellOracle :=
  ⟨GenResp.ok [], GenResp.ok [], EvalResp.parsed ⟨some 5, some [], none⟩,
   GenResp.ok [], EvalResp.parsed ⟨some 5, some [], none⟩⟩

/-- Concrete oracle: both evaluation responses parse into objects that have no
`score` key. -/
def oNoScore : CellOracle :=
  ⟨GenResp.ok (str "Grey sofa"), GenResp.ok (str "Nice grey sofa"),
   EvalResp.parsed ⟨none, some (str "great"), some (str "tone")⟩,
   GenResp.ok (str "Refined sofa"),
   EvalResp.parsed ⟨none, some (str "fine"), none⟩⟩

/-- Concrete table: no name column, a category column whose value is missing
(NaN) at every row. -/
def dfNanCategory : DataFrame :=
  ⟨false, true, fun _ => none, fun _ => none⟩


/-- Replacing a pattern that does not occur in a text leaves the text
unchanged, for any amount of fuel. -/
theorem replaceFuel_eq_self (old new : Str) :
    ∀ (fuel : Nat) (s : Str), containsSub old s = false → replaceFuel old new fuel s = s := by
  intro fuel
  induction fuel with
  | zero =>
    intro s _h
    cases s <;> rfl
  | succ n ih =>
    intro s h
    cases s with
    | nil => rfl
    | cons c rest =>
      rw [containsSub] at h
      have h2 := Bool.or_eq_false_iff.mp h
      rw [replaceFuel, if_neg, ih rest h2.2]
      intro hc
      rw [h2.1] at hc
      exact Bool.false_ne_true hc.2

/-- Python replace is the identity when the pattern is absent. -/
theorem pyReplace_eq_self (s old new : Str) (h : containsSub old s = false) :
    pyReplace s old new = s :=
  replaceFuel_eq_self old new s.length s h

/-- The terminology loop is the identity on a text that contains no active
glossary source term. -/
theorem applyGlossary_eq_self (gl : List (Str × Str)) (original_text s : Str)
    (h : ∀ p ∈ gl, containsSub (pyLower p.1) (pyLower original_text) = true →
      containsSub p.1 s = false) :
    applyGlossary gl original_text s = s := by
  induction gl with
  | nil => rfl
  | cons p rest ih =>
    rw [applyGlossary]
    by_cases ha : containsSub (pyLower p.1) (pyLower original_text) = true
    · rw [if_pos ha, pyReplace_eq_self s p.1 p.2 (h p (by simp) ha)]
      exact ih (fun q hq hq2 => h q (by simp [hq]) hq2)
    · rw [if_neg ha]
      exact ih (fun q hq hq2 => h q (by simp [hq]) hq2)

/-- An evaluation call never records a refinement call. -/
theorem evaluate_calls_no_refine (resp : EvalResp)
    (original_text translated_text improved_text column_name : Str) :
    Call.refine ∉ (evaluate_translation_quality resp original_text translated_text
      improved_text column_name).2 := by
  unfold evaluate_translation_quality
  split
  · simp
  · cases resp <;> simp

/-- Claim C9 (counterexample): the Terminology Normalizer is not idempotent.
With original text "table basse" the glossary entry "table basse" → "coffee
table" is active; on the translated text "table basse basse" one pass yields
"coffee table basse", which again contains "table basse", so a second pass
changes the text to "coffee coffee table". -/
theorem applyTerminology_not_idempotent :
    applyTerminology (str "table basse")
        (applyTerminology (str "table basse") (str "table basse basse")) ≠
      applyTerminology (str "table basse") (str "table basse basse") := by decide

/-- Claim C9 (amended): the Terminology Normalizer is idempotent on every
input whose once-normalized output no longer contains any active glossary
source term; in general a replacement can recreate an active term and a
second pass then changes the text again. -/
theorem applyTerminology_idem_of_no_residual_term (original_text translated_text : Str)
    (h : ∀ p ∈ TERMINOLOGY, containsSub (pyLower p.1) (pyLower original_text) = true →
      containsSub p.1 (applyTerminology original_text translated_text) = false) :
    applyTerminology original_text (applyTerminology original_text translated_text) =
      applyTerminology original_text translated_text :=
  applyGlossary_eq_self TERMINOLOGY original_text _ h

/-- Claim C9 (witness): concrete idempotence instance on "grey canapé". -/
theorem applyTerminology_idem_of_no_residual_term_inst :
    applyTerminology (str "canapé") (applyTerminology (str "canapé") (str "grey canapé")) =
      applyTerminology (str "canapé") (str "grey canapé") :=
  applyTerminology_idem_of_no_residual_term (str "canapé") (str "grey canapé") (by decide)

/-- Claim C3 (counterexample): the Evaluation Stage does not clamp a parsed
score to [0,5]: a successfully parsed response carrying score 6 is returned
verbatim. -/
theorem parsed_score_unclamped :
    (evaluate_translation_quality (EvalResp.parsed ⟨some 6, some [], some []⟩)
        (str "a") (str "b") (str "c") colX).1 =
      Except.ok ⟨some 6, some [], some []⟩ ∧ ¬((6 : Int) ≤ 5) :=
  ⟨rfl, by decide⟩

/-- Claim C3 (amended): a malformed structured response yields the sentinel
with score exactly 0, while a successfully parsed response is returned
verbatim, without clamping its score to [0,5]. -/
theorem evaluate_sentinel_and_passthrough
    (original_text translated_text improved_text column_name m : Str) (ev : Evaluation)
    (ht : translated_text ≠ []) (hi : improved_text ≠ []) :
    (evaluate_translation_quality (EvalResp.parseFail m) original_text translated_text
        improved_text column_name).1 =
      Except.ok ⟨some 0, some (str "Error: " ++ m), some []⟩ ∧
    (evaluate_translation_quality (EvalResp.parsed ev) original_text translated_text
        improved_text column_name).1 = Except.ok ev := by
  constructor <;> simp [evaluate_translation_quality, ht, hi]

/-- Claim C3 (witness): the amended statement at concrete inputs. -/
theorem evaluate_sentinel_and_passthrough_inst :
    (evaluate_translation_quality (EvalResp.parseFail (str "Expecting value")) (str "a")
        (str "b") (str "c") colX).1 =
      Except.ok ⟨some 0, some (str "Error: " ++ str "Expecting value"), some []⟩ ∧
    (evaluate_translation_quality (EvalResp.parsed ⟨some 5, some [], none⟩) (str "a")
        (str "b") (str "c") colX).1 = Except.ok ⟨some 5, some [], none⟩ :=
  evaluate_sentinel_and_passthrough (str "a") (str "b") (str "c") colX
    (str "Expecting value") ⟨some 5, some [], none⟩ (by decide) (by decide)

/-- Claim C5: with an empty raw translation or an empty candidate, the
Evaluation Stage short-circuits to the empty-translation sentinel and makes no
external call, whatever the collaborator would have answered. -/
theorem evaluate_empty_short_circuit (resp : EvalResp)
    (original_text translated_text improved_text column_name : Str)
    (h : translated_text = [] ∨ improved_text = []) :
    evaluate_translation_quality resp original_text translated_text improved_text column_name =
      (Except.ok ⟨some 0, some (str "Empty translation"), none⟩, []) := by
  unfold evaluate_translation_quality
  rw [if_pos h]

/-- Claim C5 (witness): the short-circuit at a concrete empty raw
translation. -/
theorem evaluate_empty_short_circuit_inst :
    evaluate_translation_quality (EvalResp.parsed ⟨some 5, some [], none⟩)
        (str "canapé gris") [] (str "c") colX =
      (Except.ok ⟨some 0, some (str "Empty translation"), none⟩, []) :=
  evaluate_empty_short_circuit (EvalResp.parsed ⟨some 5, some [], none⟩)
    (str "canapé gris") [] (str "c") colX (Or.inl rfl)

/-- Claim C6 (counterexample): the ContextBundle built by the Context
Extractor can hold a missing value: with a category column whose cell is NaN,
the bundle is exactly [("category", none)]. -/
theorem context_bundle_keeps_missing_value :
    get_column_context dfNanCategory 0 colX = [(str "category", (none : Option Str))] := by
  decide

/-- Claim C6 (amended): the bundle itself includes sibling values verbatim;
missing and empty values are excluded only when the Improvement Stage
serializes the bundle into prompt lines, where `context_info` skips every
entry whose value is absent or empty. -/
theorem context_info_skips_missing_and_empty (df : DataFrame) (row_index : Nat)
    (current_column : Str) :
    context_info (get_column_context df row_index current_column) =
      context_info ((get_column_context df row_index current_column).filter
        fun p => !(p.2.getD []).isEmpty) := by
  generalize get_column_context df row_index current_column = l
  induction l with
  | nil => rfl
  | cons p rest ih =>
    cases hp : p.2 with
    | none => simp [context_info, hp, ih, List.filter]
    | some v =>
      cases v with
      | nil => simp [context_info, hp, ih, List.filter]
      | cons c cs => simp [context_info, hp, ih, List.filter]

/-- Claim C8 (counterexample): an empty-string source cell is not caught by
the `pd.isna` short-circuit; it flows through the pipeline and (with a
translator returning the empty text) records the feedback "Empty
translation", not the empty string. -/
theorem empty_string_cell_not_short_circuited :
    (processCell oEmptyCell (some (str "")) colX).1 =
      ⟨[], 0, str "Empty translation"⟩ ∧ str "Empty translation" ≠ [] :=
  ⟨by decide, by decide⟩

/-- Claim C8 (amended): for every missing (NaN) source cell the recorded
outputs are improved_text = "", quality_score = 0, quality_feedback = "", with
no external call; an empty-string cell is not short-circuited. -/
theorem missing_cell_outputs (o : CellOracle) (col : Str) :
    processCell o none col = (⟨[], 0, []⟩, []) := rfl

/-- Claim C4: an exception raised inside a cell's processing is recovered at
cell granularity: the orchestrator records empty text, score 0 and the
error-tagged feedback, and the rest of the batch is processed unchanged. -/
theorem cell_error_recorded_and_batch_continues (o : CellOracle)
    (original_text col m : Str) (cs : List Call) (rest : List (CellOracle × Option Str))
    (h : runCell o original_text col = Except.error (m, cs)) :
    processCell o (some original_text) col = (⟨[], 0, str "Error: " ++ m⟩, cs) ∧
    processColumn col ((o, some original_text) :: rest) =
      (⟨[], 0, str "Error: " ++ m⟩ : PipelineResult) :: processColumn col rest := by
  constructor
  · simp [processCell, h]
  · simp [processColumn, processCell, h]

/-- Claim C4 (witness): a raising improvement call on a concrete cell yields
the error sentinel and the following cell still processes normally. -/
theorem cell_error_recorded_and_batch_continues_inst :
    processCell oImpRaise (some (str "canapé gris")) colX =
      (⟨[], 0, str "Error: " ++ str "rate limit"⟩, [Call.translate, Call.improve]) ∧
    processColumn colX ((oImpRaise, some (str "canapé gris")) :: [(oPass, some (str "lit bleu"))]) =
      (⟨[], 0, str "Error: " ++ str "rate limit"⟩ : PipelineResult) ::
        processColumn colX [(oPass, some (str "lit bleu"))] :=
  cell_error_recorded_and_batch_continues oImpRaise (str "canapé gris") colX
    (str "rate limit") [Call.translate, Call.improve] [(oPass, some (str "lit bleu"))] rfl

/-- Claim C1 (counterexample): for the parse-failure sentinel evaluation
(score 0, feedback "Error: ...", improvement_areas "" — present but empty)
the Refinement Stage IS invoked, because the branch tests key presence, not
non-emptiness. -/
theorem refine_invoked_on_parse_fail_sentinel :
    (evaluate_translation_quality oSentinel.evalResp1 (str "canapé gris") (str "Grey sofa")
        (pyStrip (str "Nice grey sofa")) colX).1 =
      Except.ok ⟨some 0, some (str "Error: " ++ str "Expecting value"), some []⟩ ∧
    Call.refine ∈ (processCell oSentinel (some (str "canapé gris")) colX).2 :=
  ⟨rfl, by decide⟩

/-- Claim C1 (amended): on a cell whose first-pass improvement produced a
non-empty candidate and whose first evaluation returned the object `d`, the
Refinement Stage is invoked if and only if `d`'s score (default 5 when
absent) is below 4 and the improvement_areas key is present — its value may
be empty; in particular refinement IS invoked for the parse-failure
sentinel. -/
theorem refine_branch_iff_key_present (o : CellOracle) (original_text col tr imp : Str)
    (d : Evaluation)
    (ht : o.translateResp = GenResp.ok tr) (htr : tr ≠ [])
    (hi : o.improveResp = GenResp.ok imp) (hfp : pyStrip imp ≠ [])
    (he : (evaluate_translation_quality o.evalResp1 original_text tr (pyStrip imp) col).1 =
      Except.ok d) :
    Call.refine ∈ (processCell o (some original_text) col).2 ↔
      (d.score.getD 5 < 4 ∧ d.improvement_areas.isSome = true) := by
  obtain ⟨tR, iR, e1, rR, e2⟩ := o
  have ht' : tR = GenResp.ok tr := ht
  have hi' : iR = GenResp.ok imp := hi
  subst ht' hi'
  have h2 := evaluate_calls_no_refine e1 original_text tr (pyStrip imp) col
  rcases hE : evaluate_translation_quality e1 original_text tr (pyStrip imp) col with ⟨r, cs2⟩
  rw [hE] at he h2
  simp only at he h2
  subst he
  simp only [processCell, runCell, improve_text_with_gpt, if_neg htr, hE]
  by_cases hb : d.score.getD 5 < 4 ∧ d.improvement_areas.isSome = true
  · rw [if_pos hb]
    simp only [refine_translation, if_neg hfp]
    cases rR with
    | raise m => simp [hb]
    | ok t =>
      have h4 := evaluate_calls_no_refine e2 original_text tr (pyStrip t) col
      rcases hE4 : evaluate_translation_quality e2 original_text tr (pyStrip t) col with ⟨r4, cs4⟩
      rw [hE4] at h4
      simp only at h4
      simp only [hE4]
      cases r4 <;> simp [hb]
  · rw [if_neg hb]
    have h4 := evaluate_calls_no_refine e2 original_text tr (pyStrip imp) col
    rcases hE4 : evaluate_translation_quality e2 original_text tr (pyStrip imp) col with ⟨r4, cs4⟩
    rw [hE4] at h4
    simp only at h4
    simp only [hE4]
    cases r4 <;> simp [hb, h2, h4]

/-- Claim C1 (witness): the amended branch rule instantiated at `oSentinel`,
whose first evaluation is the parse-failure sentinel. -/
theorem refine_branch_iff_key_present_inst :
    Call.refine ∈ (processCell oSentinel (some (str "canapé gris")) colX).2 ↔
      ((Evaluation.mk (some 0) (some (str "Error: " ++ str "Expecting value"))
          (some [])).score.getD 5 < 4 ∧
        (Evaluation.mk (some 0) (some (str "Error: " ++ str "Expecting value"))
          (some [])).improvement_areas.isSome = true) :=
  refine_branch_iff_key_present oSentinel (str "canapé gris") colX (str "Grey sofa")
    (str "Nice grey sofa") ⟨some 0, some (str "Error: " ++ str "Expecting value"), some []⟩
    rfl (by decide) rfl (by decide) rfl

/-- Claim C2 (counterexample): on a non-refined cell (first evaluation scores
5 with no improvement_areas key) the orchestrator still issues a second,
final evaluation call — three generation calls in total — and records that
second call's score 4 and feedback, not the first evaluation's score 5. -/
theorem non_refined_path_reevaluates :
    processCell oPass (some (str "canapé gris")) colX =
      (⟨str "Nice grey sofa", 4, str "good"⟩,
       [Call.translate, Call.improve, Call.evaluate, Call.evaluate]) ∧ (4 : Int) ≠ 5 :=
  ⟨by decide, by decide⟩

/-- Claim C2 (amended): on a cell whose first evaluation does not trigger
refinement, the orchestrator records the first-pass candidate together with
the score and feedback of a second, final evaluation call; the external
generation calls are one improve and two evaluate calls. -/
theorem non_refined_path_final_record (o : CellOracle) (original_text col tr imp : Str)
    (d d2 : Evaluation)
    (ht : o.translateResp = GenResp.ok tr) (htr : tr ≠ [])
    (hi : o.improveResp = GenResp.ok imp) (hfp : pyStrip imp ≠ [])
    (he1 : o.evalResp1 = EvalResp.parsed d)
    (hb : ¬(d.score.getD 5 < 4 ∧ d.improvement_areas.isSome = true))
    (he2 : o.evalResp2 = EvalResp.parsed d2) :
    processCell o (some original_text) col =
      (⟨pyStrip imp, d2.score.getD 0, d2.feedback.getD []⟩,
       [Call.translate, Call.improve, Call.evaluate, Call.evaluate]) := by
  obtain ⟨tR, iR, e1, rR, e2⟩ := o
  have ht' : tR = GenResp.ok tr := ht
  have hi' : iR = GenResp.ok imp := hi
  have he1' : e1 = EvalResp.parsed d := he1
  have he2' : e2 = EvalResp.parsed d2 := he2
  subst ht' hi' he1' he2'
  simp [processCell, runCell, improve_text_with_gpt, evaluate_translation_quality,
    htr, hfp, hb]

/-- Claim C2 (witness): the amended record on a concrete non-refined cell. -/
theorem non_refined_path_final_record_inst :
    processCell oPass (some (str "lit bleu")) colX =
      (⟨pyStrip (str "Nice grey sofa"), (4 : Int), str "good"⟩,
       [Call.translate, Call.improve, Call.evaluate, Call.evaluate]) :=
  non_refined_path_final_record oPass (str "lit bleu") colX (str "Grey sofa")
    (str "Nice grey sofa") ⟨some 5, some (str "great"), none⟩ ⟨some 4, some (str "good"), some []⟩
    rfl (by decide) rfl (by decide) rfl (by decide) rfl

/-- Claim C7: when a successfully parsed first evaluation has no score key,
the branch default 5 counts as passing, so the Refinement Stage is never
invoked, whatever the rest of the cell's processing does. -/
theorem missing_score_skips_refinement (o : CellOracle) (cell : Option Str) (col : Str)
    (d : Evaluation) (he1 : o.evalResp1 = EvalResp.parsed d) (hs : d.score = none) :
    Call.refine ∉ (processCell o cell col).2 := by
  obtain ⟨tR, iR, e1, rR, e2⟩ := o
  have he1' : e1 = EvalResp.parsed d := he1
  subst he1'
  cases cell with
  | none => simp [processCell]
  | some original_text =>
    cases tR with
    | raise m => simp [processCell, runCell]
    | ok tr =>
      by_cases htr : tr = []
      · subst htr
        cases e2 with
        | raise m => simp [processCell, runCell, improve_text_with_gpt,
            evaluate_translation_quality]
        | parseFail m => simp [processCell, runCell, improve_text_with_gpt,
            evaluate_translation_quality]
        | parsed ev => simp [processCell, runCell, improve_text_with_gpt,
            evaluate_translation_quality]
      · cases iR with
        | raise m => simp [processCell, runCell, improve_text_with_gpt, htr]
        | ok imp =>
          by_cases hfp : pyStrip imp = []
          · cases e2 with
            | raise m => simp [processCell, runCell, improve_text_with_gpt,
                evaluate_translation_quality, htr, hfp]
            | parseFail m => simp [processCell, runCell, improve_text_with_gpt,
                evaluate_translation_quality, htr, hfp]
            | parsed ev => simp [processCell, runCell, improve_text_with_gpt,
                evaluate_translation_quality, htr, hfp]
          · cases e2 with
            | raise m => simp [processCell, runCell, improve_text_with_gpt,
                evaluate_translation_quality, htr, hfp, hs]
            | parseFail m => simp [processCell, runCell, improve_text_with_gpt,
                evaluate_translation_quality, htr, hfp, hs]
            | parsed ev => simp [processCell, runCell, improve_text_with_gpt,
                evaluate_translation_quality, htr, hfp, hs]

/-- Claim C7 (witness): no refinement on a concrete cell whose parsed first
evaluation lacks a score. -/
theorem missing_score_skips_refinement_inst :
    Call.refine ∉ (processCell oNoScore (some (str "canapé gris")) colX).2 :=
  missing_score_skips_refinement oNoScore (some (str "canapé gris")) colX
    ⟨none, some (str "great"), some (str "tone")⟩ rfl rfl

/-- Claim C10: when both parsed evaluations of a cell lack a score key, the
two defaults disagree: the branch default 5 skips refinement while the
recording default 0 writes quality_score 0 — the cell is recorded with score
0 yet never refined. -/
theorem missing_score_defaults_disagree (o : CellOracle) (original_text col tr imp : Str)
    (d d2 : Evaluation)
    (ht : o.translateResp = GenResp.ok tr) (htr : tr ≠ [])
    (hi : o.improveResp = GenResp.ok imp) (hfp : pyStrip imp ≠ [])
    (he1 : o.evalResp1 = EvalResp.parsed d) (hs1 : d.score = none)
    (he2 : o.evalResp2 = EvalResp.parsed d2) (hs2 : d2.score = none) :
    (processCell o (some original_text) col).1.quality_score = 0 ∧
      Call.refine ∉ (processCell o (some original_text) col).2 := by
  obtain ⟨tR, iR, e1, rR, e2⟩ := o
  have ht' : tR = GenResp.ok tr := ht
  have hi' : iR = GenResp.ok imp := hi
  have he1' : e1 = EvalResp.parsed d := he1
  have he2' : e2 = EvalResp.parsed d2 := he2
  subst ht' hi' he1' he2'
  constructor <;>
    simp [processCell, runCell, improve_text_with_gpt, evaluate_translation_quality,
      htr, hfp, hs1, hs2]

/-- Claim C10 (witness): a concrete cell recorded with quality_score 0 that
was never refined. -/
theorem missing_score_defaults_disagree_inst :
    (processCell oNoScore (some (str "lit bleu")) colX).1.quality_score = 0 ∧
      Call.refine ∉ (processCell oNoScore (some (str "lit bleu")) colX).2 :=
  missing_score_defaults_disagree oNoScore (str "lit bleu") colX (str "Grey sofa")
    (str "Nice grey sofa") ⟨none, some (str "great"), some (str "tone")⟩
    ⟨none, some (str "fine"), none⟩ rfl (by decide) rfl (by decide) rfl rfl rfl rfl

end TranslatePy
